import Mathlib

/-!
Verification of the Device binding layer of rs-nfc1 (src/device.rs).

The Rust code is a thin wrapper over the native libnfc ABI. Native calls are
embedded as functions of the data the native layer hands back (return code,
buffer contents after the call, allocated pointers), and the wrapper logic
around them (buffer preparation, sign checks, conversion, release calls) is
translated directly from src/device.rs. Native release calls performed by the
wrapper are recorded as an explicit effect trace.
-/

namespace RsNfc1

/-- Error type of the crate, as the spec describes it: an allocation failure
variant (Error::Malloc), one structured variant per negative native return
code (converted losslessly from the integer), and a conversion failure for
malformed native target records. -/
inductive Error
  | Malloc
  | Native (code : Int)
  | InvalidTarget
  deriving DecidableEq, Repr

/-- Modelled from the spec: the crate-level helper wrap_err (declared outside
src/device.rs) turns a native return code into a result, with every negative
code surfaced as the structured error converted from it and every nonnegative
code treated as success. -/
def wrap_err (res : Int) : Except Error Unit :=
  if res < 0 then .error (.Native res) else .ok ()

/-! ## Connection string buffer (Device::new_device, claim C1) -/

/-- Embedding of the fixed-size buffer fill in Device::new_device: a 1024-byte
array whose every slot starts as the zero byte, after the loop that zips the
bytes of the input string with the mutable slots and writes byte i of the
string into slot i (so exactly the slots below min(len, 1024) are overwritten,
and the zip ends at whichever of the two sequences ends first). -/
def connstring_fixed_size (s : List UInt8) : List UInt8 :=
  (List.range 1024).map (fun i => s.getD i 0)

/-- Closed form of the buffer fill: the first min(n, len) slots hold the
string bytes and the rest keep the zero byte. -/
theorem range_map_getD (s : List UInt8) (n : Nat) :
    (List.range n).map (fun i => s.getD i 0) =
      s.take n ++ List.replicate (n - s.length) 0 := by
  induction n with
  | zero => simp
  | succ n ih =>
    rw [List.range_succ, List.map_append, ih]
    by_cases h : n < s.length
    · have h1 : n + 1 - s.length = 0 := by omega
      have h2 : n - s.length = 0 := by omega
      rw [h1, h2]
      simp only [List.map_cons, List.map_nil, List.replicate_zero, List.append_nil]
      rw [List.getD_eq_getElem s 0 h, List.take_succ, List.getElem?_eq_getElem h]
      simp
    · have h1 : s.length ≤ n := by omega
      have h2 : n + 1 - s.length = (n - s.length) + 1 := by omega
      rw [List.take_of_length_le h1, List.take_of_length_le (by omega), h2,
        List.replicate_succ' (n - s.length) (0 : UInt8)]
      simp only [List.map_cons, List.map_nil]
      rw [List.getD_eq_default s 0 h1]
      simp

theorem connstring_fixed_size_eq (s : List UInt8) :
    connstring_fixed_size s = s.take 1024 ++ List.replicate (1024 - s.length) 0 :=
  range_map_getD s 1024

/-- Claim C1 (amended): for a connection string of fewer than 1024 bytes the
1024-byte buffer handed to the native open call holds the string byte-for-byte
followed by null padding, and no error is raised; for a string of 1024 bytes
or more the copy is truncated at 1024 bytes (the whole buffer consists of
string bytes) and no null terminator is appended. -/
theorem connstring_copy (s : List UInt8) :
    (s.length < 1024 → connstring_fixed_size s = s ++ List.replicate (1024 - s.length) 0) ∧
    (1024 ≤ s.length → connstring_fixed_size s = s.take 1024) := by
  refine ⟨fun h => ?_, fun h => ?_⟩
  · rw [connstring_fixed_size_eq, List.take_of_length_le (by omega)]
  · rw [connstring_fixed_size_eq]
    have h0 : 1024 - s.length = 0 := by omega
    rw [h0]
    simp

/-- Claim C1 witness: a concrete two-byte string is preserved byte-for-byte
and null-padded in the buffer. -/
theorem connstring_copy_witness :
    ([2, 7] : List UInt8).length < 1024 ∧
      connstring_fixed_size [2, 7] =
        [2, 7] ++ List.replicate (1024 - ([2, 7] : List UInt8).length) 0 :=
  ⟨by decide, (connstring_copy [2, 7]).1 (by decide)⟩

/-- Claim C1 counterexample: for the 1024-byte string whose bytes are all 1,
the claim says the buffer is the first 1023 bytes followed by a null
terminator, but the buffer the code builds carries all 1024 string bytes and
ends in the byte 1, not in a null terminator. -/
theorem connstring_copy_counterexample :
    connstring_fixed_size (List.replicate 1024 (1 : UInt8)) ≠
      (List.replicate 1024 (1 : UInt8)).take 1023 ++ [0] := by
  have hbuf : connstring_fixed_size (List.replicate 1024 (1 : UInt8)) =
      List.replicate 1023 (1 : UInt8) ++ [1] := by
    rw [connstring_fixed_size_eq, List.length_replicate, Nat.sub_self,
      List.take_replicate, min_self]
    simp only [List.replicate_zero, List.append_nil]
    exact List.replicate_succ' 1023 1
  have hm : min 1023 1024 = 1023 := by norm_num
  rw [hbuf, List.take_replicate, hm]
  intro h
  exact absurd (List.append_cancel_left h) (by decide)

/-! ## Passive target listing (claim C2) -/

/-- Native target records are opaque to the listing code in src/device.rs and
are modelled by their bit pattern. -/
abbrev NfcTarget := Nat

/-- Crate-level target values are likewise opaque to the listing code. -/
abbrev Target := Nat

/-- Embedding of Device::initiator_list_passive_targets: buf is the max_len
element buffer after the native call (the native call overwrites the first n
placeholder records in place), res is the native return code reporting how
many targets were found, and conv is the fallible try_into conversion
(declared outside src/device.rs, hence a parameter). The code checks only the
sign of res through wrap_err, then converts every one of the max_len buffer
entries, collecting the results so that the first failing conversion aborts
the whole operation. -/
def initiator_list_passive_targets (res : Int) (buf : List NfcTarget)
    (conv : NfcTarget → Except Error Target) : Except Error (List Target) := do
  wrap_err res
  buf.mapM conv

/-- Claim C2 (code bug, evaluated at the failing input): with the native call
succeeding and reporting zero targets found (return code 0) and a buffer of
two placeholder records whose conversion succeeds, the operation returns two
converted targets instead of zero: the native count is discarded after the
sign check and the whole max_len buffer is converted. -/
theorem list_passive_targets_discards_count :
    initiator_list_passive_targets 0 [0, 0] (fun t => .ok t) = .ok [0, 0] := by
  rfl

/-! ## Poll period discretization (claim C3) -/

/-- Embedding of the poll period computation in Device::initiator_poll_target:
the requested duration in whole milliseconds is divided by 150, the quotient
is floored and capped at 255, and the result is the unit count handed to the
native call. The source performs the division in 32-bit floating point; it is
modelled here in exact rational arithmetic, with which it agrees on every
input: integers at most 38250 are exactly representable and the correctly
rounded quotient never crosses an integer boundary (an inexact quotient is at
least 1/150 away from the next integer, far above a half ulp at magnitudes
below 256), while every input above that is capped to 255 by both
computations. -/
def poll_period_units (millis : Nat) : Nat :=
  min ⌊(millis : ℚ) / 150⌋₊ 255

/-- Claim C3: a requested period of 0 ms maps to unit 0, a requested period of
at least 38250 ms maps to the maximum unit 255, and in general the unit count
is the requested millisecond count divided by 150 rounded down, capped at
255. -/
theorem poll_period_discretization :
    poll_period_units 0 = 0 ∧
    (∀ m, 38250 ≤ m → poll_period_units m = 255) ∧
    (∀ m, poll_period_units m = min (m / 150) 255) := by
  have hcast : ((150 : ℕ) : ℚ) = (150 : ℚ) := by norm_num
  have key : ∀ m : Nat, poll_period_units m = min (m / 150) 255 := by
    intro m
    unfold poll_period_units
    rw [← hcast, Nat.floor_div_nat, Nat.floor_natCast]
  refine ⟨by rw [key 0]; decide, fun m hm => ?_, key⟩
  rw [key m]
  have h150 : 255 ≤ m / 150 := by
    rw [Nat.le_div_iff_mul_le (by norm_num)]
    omega
  omega

/-- Claim C3 witness: the boundary input of 38250 ms maps to the maximum unit
value 255. -/
theorem poll_period_discretization_witness : poll_period_units 38250 = 255 :=
  poll_period_discretization.2.1 38250 (by decide)

/-! ## Last error query (claim C4) -/

/-- Embedding of Device::get_last_error: query the native last-error value; a
nonnegative value yields none and a negative value yields the structured
error converted from the integer (the conversion res.into() is declared
outside src/device.rs and per the spec is the lossless per-code variant,
modelled by Error.Native). -/
def get_last_error (res : Int) : Option Error :=
  if 0 ≤ res then none else some (.Native res)

/-- Claim C4: the last-error query returns the structured error converted from
the native value exactly when that value is negative, and none exactly when
it is nonnegative; in particular it returns none whenever the last native
result was a success. -/
theorem get_last_error_sign (res : Int) :
    (get_last_error res = some (.Native res) ↔ res < 0) ∧
    (get_last_error res = none ↔ 0 ≤ res) := by
  unfold get_last_error
  by_cases h : 0 ≤ res <;> simp [h] <;> omega

/-! ## Device construction (claim C5) -/

/-- Device wraps one open native handle; the handle is modelled by its
address, nonnull because the source holds it as a reference obtained from a
successful as_mut on the pointer the native open returned. -/
structure Device where
  ptr : Nat
  deriving DecidableEq, Repr

/-- Embedding of the open-result handling in Device::new_device (shared by new
and new_with_connstring): the native open returns a nullable handle; a
present handle is wrapped into a Device and an absent one becomes
Error.Malloc. -/
def new_device (handle : Option Nat) : Except Error Device :=
  match handle with
  | some p => .ok ⟨p⟩
  | none => .error .Malloc

/-- Claim C5: opening a device either returns a Device wrapping the native
handle (exactly when the native open produced one) or fails with Error.Malloc
(exactly when it did not); since a result is never both an ok and an error,
the two outcomes are mutually exclusive and exhaustive. -/
theorem new_device_exhaustive (handle : Option Nat) :
    ((∃ d, new_device handle = .ok d ∧ handle = some d.ptr) ↔ handle.isSome = true) ∧
    (new_device handle = .error .Malloc ↔ handle = none) := by
  cases handle <;> simp [new_device]

/-! ## Supported modulation and baud rate enumeration (claim C6) -/

/-- Embedding of the sentinel enumeration loop shared by
Device::get_supported_modulation and Device::get_supported_baud_rate: read
the entry at each successive index, stop at the first zero entry, and push
the conversion of every nonzero entry in order. The memory the native call
exposes is modelled as the list arr; a none result models the loop running
off the end of the provided memory because no sentinel is present. -/
def sentinel_loop {α : Type} (conv : Nat → α) : List Nat → Option (List α)
  | [] => none
  | v :: rest =>
    if v = 0 then some [] else (sentinel_loop conv rest).map (fun l => conv v :: l)

/-- Embedding of Device::get_supported_modulation: wrap_err on the native
return code, then the sentinel enumeration of the array the native call set
up; conv stands for the native-to-enumeration conversion val.into(), declared
outside src/device.rs. -/
def get_supported_modulation {α : Type} (res : Int) (arr : List Nat)
    (conv : Nat → α) : Except Error (Option (List α)) := do
  wrap_err res
  pure (sentinel_loop conv arr)

/-- Embedding of Device::get_supported_baud_rate: the same loop over the array
set up by whichever of the two native baud rate queries the mode selects. -/
def get_supported_baud_rate {α : Type} (res : Int) (arr : List Nat)
    (conv : Nat → α) : Except Error (Option (List α)) := do
  wrap_err res
  pure (sentinel_loop conv arr)

theorem sentinel_loop_append {α : Type} (conv : Nat → α) (pre : List Nat)
    (hpre : ∀ x ∈ pre, x ≠ 0) (rest : List Nat) :
    sentinel_loop conv (pre ++ 0 :: rest) = some (pre.map conv) := by
  induction pre with
  | nil => simp [sentinel_loop]
  | cons v pre ih =>
    have hv : v ≠ 0 := hpre v (by simp)
    have h2 : ∀ x ∈ pre, x ≠ 0 := fun x hx => hpre x (by simp [hx])
    simp [sentinel_loop, hv, ih h2]

/-- Claim C6: whenever the array holds its first zero sentinel at index k, the
enumeration loop terminates there, returns exactly the k preceding nonzero
values converted in order, returns the empty sequence when k = 0, and never
reads past the sentinel (its result is unchanged under any replacement of the
memory beyond the sentinel); under a successful native return code both
queries return exactly that sequence. -/
theorem sentinel_enumeration {α : Type} (conv : Nat → α) (arr : List Nat)
    (k : Nat) (hk : k < arr.length) (hsent : arr.get ⟨k, hk⟩ = 0)
    (hbefore : ∀ i (hi : i < k), arr.get ⟨i, Nat.lt_trans hi hk⟩ ≠ 0) :
    sentinel_loop conv arr = some ((arr.take k).map conv) ∧
    (k = 0 → sentinel_loop conv arr = some []) ∧
    (∀ tail, sentinel_loop conv (arr.take (k + 1) ++ tail) =
      some ((arr.take k).map conv)) ∧
    (∀ res, 0 ≤ res →
      get_supported_modulation res arr conv = .ok (some ((arr.take k).map conv)) ∧
      get_supported_baud_rate res arr conv = .ok (some ((arr.take k).map conv))) := by
  rw [List.get_eq_getElem] at hsent
  have hpre : ∀ x ∈ arr.take k, x ≠ 0 := by
    intro x hx
    obtain ⟨j, hj, hget⟩ := List.getElem_of_mem hx
    have hjk : j < k := by
      rw [List.length_take] at hj
      omega
    rw [List.getElem_take] at hget
    have := hbefore j hjk
    rw [List.get_eq_getElem] at this
    rw [← hget]
    exact this
  have hmain : sentinel_loop conv arr = some ((arr.take k).map conv) := by
    conv_lhs => rw [← List.take_append_drop k arr, List.drop_eq_getElem_cons hk, hsent]
    exact sentinel_loop_append conv (arr.take k) hpre (arr.drop (k + 1))
  have htail : ∀ tail, sentinel_loop conv (arr.take (k + 1) ++ tail) =
      some ((arr.take k).map conv) := by
    intro tail
    rw [List.take_succ, List.getElem?_eq_getElem hk, hsent]
    rw [List.append_assoc]
    exact sentinel_loop_append conv (arr.take k) hpre tail
  refine ⟨hmain, fun h0 => ?_, htail, fun res hres => ?_⟩
  · rw [hmain, h0]
    simp
  · have hok : wrap_err res = .ok () := by
      unfold wrap_err
      rw [if_neg (by omega)]
    constructor <;>
      simp [get_supported_modulation, get_supported_baud_rate, hok, hmain]

/-- Claim C6 witness: for the array holding 3 then the sentinel then junk, the
loop stops at the sentinel and both queries return exactly the converted
prefix. -/
theorem sentinel_enumeration_witness :
    sentinel_loop (fun n => n + 10) [3, 0, 7] = some [13] ∧
      get_supported_modulation 0 [3, 0, 7] (fun n => n + 10) = .ok (some [13]) := by
  have h := sentinel_enumeration (fun n => n + 10) [3, 0, 7] 1 (by decide)
    (by decide) (by decide)
  refine ⟨?_, ?_⟩
  · have := h.1
    simpa using this
  · have := (h.2.2.2 0 (by decide)).1
    simpa using this

/-! ## Native release effects (claims C7 and C8) -/

/-- Release calls the wrapper makes into the native library, recorded as an
explicit trace: nfc_free on a library-allocated string buffer and nfc_close
on the device handle. -/
inductive Effect
  | free (ptr : Nat)
  | close (ptr : Nat)
  deriving DecidableEq, Repr

/-- Embedding of Device::get_information_about as a function of the native
response: res is the native return code, strinfo_ptr the string buffer the
native call allocated on success, contents the text in it. The first
component is the returned result, the second the trace of release calls: the
early return on a negative code performs none (the native call allocated
nothing), and on success the allocated buffer is released exactly once after
its contents are copied into an owned string. -/
def get_information_about (res : Int) (strinfo_ptr : Nat) (contents : String) :
    Except Error String × List Effect :=
  match wrap_err res with
  | .error e => (.error e, [])
  | .ok _ => (.ok contents, [.free strinfo_ptr])

/-- Claim C7: on every execution path on which the native call allocated a
string (every successful native return), the library free call is performed
on that buffer exactly once, whatever the copied contents (including the
empty string), so repeated calls never accumulate unreleased native
allocations. -/
theorem information_about_frees_once (res : Int) (strinfo_ptr : Nat)
    (contents : String) (h : 0 ≤ res) :
    (get_information_about res strinfo_ptr contents).2.count (.free strinfo_ptr) = 1 ∧
    (get_information_about res strinfo_ptr contents).1 = .ok contents := by
  have hok : wrap_err res = .ok () := by
    unfold wrap_err
    rw [if_neg (by omega)]
  simp [get_information_about, hok]

/-- Claim C7 witness: a successful call whose string is empty still releases
the buffer exactly once. -/
theorem information_about_frees_once_witness :
    (get_information_about 0 7 "").2.count (.free 7) = 1 ∧
      (get_information_about 0 7 "").1 = .ok "" :=
  information_about_frees_once 0 7 "" (by decide)

/-- Embedding of the Drop implementation for Device: the destructor performs
exactly one nfc_close on the wrapped handle. -/
def Device.drop (d : Device) : List Effect := [.close d.ptr]

/-- Modelled from the spec: the owning scope of a Device. Rust drop glue is
declared outside src/device.rs; per the spec, destruction is deterministic at
end of the owning scope, the destructor runs exactly once on every exit path
(normal value or error from an early return), and no operation on the Device
can follow it, so the scope trace is the body trace followed by the
destructor effects, with nothing after them. The body is arbitrary client
code using the Device, returning its result with the trace of release calls
it performs. -/
def run_scope {α : Type} (d : Device)
    (body : Device → Except Error α × List Effect) :
    Except Error α × List Effect :=
  ((body d).1, (body d).2 ++ Device.drop d)

/-- Claim C8: for every successfully constructed Device and every body run in
its owning scope, provided the body itself never closes the handle (true of
every operation the wrapper offers, none of which emits a close), the scope
trace closes the handle exactly once, as its final action, on normal and
error exits alike, including the body that performs no operation at all. -/
theorem device_close_once {α : Type} (d : Device)
    (body : Device → Except Error α × List Effect)
    (hbody : (body d).2.count (.close d.ptr) = 0) :
    (run_scope d body).2.count (.close d.ptr) = 1 ∧
    (run_scope d body).2 = (body d).2 ++ [.close d.ptr] := by
  unfold run_scope Device.drop
  refine ⟨?_, rfl⟩
  rw [List.count_append, hbody]
  simp

/-- Claim C8 witness: a scope whose body performs no operation and exits with
an error still closes the handle exactly once, at the end of the trace. -/
theorem device_close_once_witness :
    (run_scope ⟨5⟩ (fun _ => ((.error .Malloc : Except Error Unit), []))).2.count
        (.close 5) = 1 ∧
      (run_scope ⟨5⟩ (fun _ => ((.error .Malloc : Except Error Unit), []))).2 =
        [] ++ [.close 5] :=
  device_close_once ⟨5⟩ (fun _ => ((.error .Malloc : Except Error Unit), [])) (by decide)

/-! ## Lifetime of the name and connstring views (claim C9) -/

/-- Rust reference lifetimes as declared in a signature: either the unbounded
static lifetime or a lifetime bounded by a borrowed owner. -/
inductive RustLifetime
  | unbounded
  | boundedBy (owner : String)
  deriving DecidableEq, Repr

/-- The lifetime of the string view Device::name declares in src/device.rs:
the signature returns a reference with the static (unbounded) lifetime, not
one borrowed from the Device receiver. -/
def name_return_lifetime : RustLifetime := .unbounded

/-- The lifetime of the string view Device::connstring declares in
src/device.rs: likewise the static (unbounded) lifetime. -/
def connstring_return_lifetime : RustLifetime := .unbounded

/-- Modelled from the spec: Rust permits a reference to be retained and used
past the destruction of a value exactly when its lifetime is not bounded by
that value; a reference with the static lifetime outlives every scope, while
one bounded by an owner is rejected by the borrow checker once the owner is
destroyed. -/
def retainable_past_owner : RustLifetime → Bool
  | .unbounded => true
  | .boundedBy _ => false

/-- Claim C9 (code bug, evaluated on the declared signatures): both accessors
declare the static lifetime for their returned views, so the type system
permits retaining and using the views after the Device that produced them is
destroyed, contrary to the claim that the views cannot be retained or used
beyond its destruction. -/
theorem name_views_retainable :
    retainable_past_owner name_return_lifetime = true ∧
    retainable_past_owner connstring_return_lifetime = true ∧
    name_return_lifetime ≠ .boundedBy "Device" :=
  ⟨rfl, rfl, by decide⟩

/-! ## Receive buffer lengths (claim C10) -/

/-- Models the native call writing the bytes it received into the front of the
caller-allocated receive buffer: the buffer keeps its length, its leading
entries are replaced by the received bytes, and received bytes beyond the end
of the buffer do not grow it. -/
def native_fill (buf data : List UInt8) : List UInt8 :=
  data.take buf.length ++ buf.drop data.length

theorem native_fill_length (buf data : List UInt8) :
    (native_fill buf data).length = buf.length := by
  unfold native_fill
  rw [List.length_append, List.length_take, List.length_drop]
  omega

/-- Embedding of Device::initiator_transceive_bytes: allocate a zeroed buffer
of the requested capacity, let the native call overwrite its front with the
received bytes and report its count (or an error) in res, check only the
sign of res through wrap_err, and return the whole buffer (the count is
discarded). -/
def initiator_transceive_bytes (rx_len : Nat) (res : Int) (data : List UInt8) :
    Except Error (List UInt8) := do
  wrap_err res
  pure (native_fill (List.replicate rx_len 0) data)

/-- Embedding of Device::initiator_transceive_bytes_timed: as above, also
returning the elapsed cycle count the native call reported. -/
def initiator_transceive_bytes_timed (rx_len : Nat) (res : Int)
    (data : List UInt8) (cycles : Nat) : Except Error (List UInt8 × Nat) := do
  wrap_err res
  pure (native_fill (List.replicate rx_len 0) data, cycles)

/-- Embedding of Device::initiator_transceive_bits (parity pointers null). -/
def initiator_transceive_bits (rx_len : Nat) (res : Int) (data : List UInt8) :
    Except Error (List UInt8) := do
  wrap_err res
  pure (native_fill (List.replicate rx_len 0) data)

/-- Embedding of Device::initiator_transceive_bits_with_parity: a data buffer
and a parity buffer, both allocated at the requested capacity and both
returned whole. -/
def initiator_transceive_bits_with_parity (rx_len : Nat) (res : Int)
    (data pdata : List UInt8) : Except Error (List UInt8 × List UInt8) := do
  wrap_err res
  pure (native_fill (List.replicate rx_len 0) data,
    native_fill (List.replicate rx_len 0) pdata)

/-- Embedding of Device::initiator_transceive_bits_timed. -/
def initiator_transceive_bits_timed (rx_len : Nat) (res : Int)
    (data : List UInt8) (cycles : Nat) : Except Error (List UInt8 × Nat) := do
  wrap_err res
  pure (native_fill (List.replicate rx_len 0) data, cycles)

/-- Embedding of Device::initiator_transceive_bits_with_parity_timed. -/
def initiator_transceive_bits_with_parity_timed (rx_len : Nat) (res : Int)
    (data pdata : List UInt8) (cycles : Nat) :
    Except Error (List UInt8 × List UInt8 × Nat) := do
  wrap_err res
  pure (native_fill (List.replicate rx_len 0) data,
    native_fill (List.replicate rx_len 0) pdata, cycles)

/-- Embedding of Device::target_init: the initial bytes read from the
initiator land in a caller-capacity buffer returned whole. -/
def target_init (rx_len : Nat) (res : Int) (data : List UInt8) :
    Except Error (List UInt8) := do
  wrap_err res
  pure (native_fill (List.replicate rx_len 0) data)

/-- Embedding of Device::target_receive_bytes. -/
def target_receive_bytes (rx_len : Nat) (res : Int) (data : List UInt8) :
    Except Error (List UInt8) := do
  wrap_err res
  pure (native_fill (List.replicate rx_len 0) data)

/-- Embedding of Device::target_receive_bits (parity pointer null). -/
def target_receive_bits (rx_len : Nat) (res : Int) (data : List UInt8) :
    Except Error (List UInt8) := do
  wrap_err res
  pure (native_fill (List.replicate rx_len 0) data)

/-- Embedding of Device::target_receive_bits_with_parity. -/
def target_receive_bits_with_parity (rx_len : Nat) (res : Int)
    (data pdata : List UInt8) : Except Error (List UInt8 × List UInt8) := do
  wrap_err res
  pure (native_fill (List.replicate rx_len 0) data,
    native_fill (List.replicate rx_len 0) pdata)

/-- Claim C10: every successful buffer-receiving operation returns byte (and
parity) vectors of length exactly the requested capacity rx_len, regardless
of how many bytes the native layer received (the count in res is discarded
after the sign check): each operation returns the whole filled buffer, whose
length is rx_len. -/
theorem receive_buffer_length (rx_len : Nat) (res : Int) (data pdata : List UInt8)
    (cycles : Nat) (h : 0 ≤ res) :
    (native_fill (List.replicate rx_len 0) data).length = rx_len ∧
    (native_fill (List.replicate rx_len 0) pdata).length = rx_len ∧
    initiator_transceive_bytes rx_len res data =
      .ok (native_fill (List.replicate rx_len 0) data) ∧
    initiator_transceive_bytes_timed rx_len res data cycles =
      .ok (native_fill (List.replicate rx_len 0) data, cycles) ∧
    initiator_transceive_bits rx_len res data =
      .ok (native_fill (List.replicate rx_len 0) data) ∧
    initiator_transceive_bits_with_parity rx_len res data pdata =
      .ok (native_fill (List.replicate rx_len 0) data,
        native_fill (List.replicate rx_len 0) pdata) ∧
    initiator_transceive_bits_timed rx_len res data cycles =
      .ok (native_fill (List.replicate rx_len 0) data, cycles) ∧
    initiator_transceive_bits_with_parity_timed rx_len res data pdata cycles =
      .ok (native_fill (List.replicate rx_len 0) data,
        native_fill (List.replicate rx_len 0) pdata, cycles) ∧
    target_init rx_len res data = .ok (native_fill (List.replicate rx_len 0) data) ∧
    target_receive_bytes rx_len res data =
      .ok (native_fill (List.replicate rx_len 0) data) ∧
    target_receive_bits rx_len res data =
      .ok (native_fill (List.replicate rx_len 0) data) ∧
    target_receive_bits_with_parity rx_len res data pdata =
      .ok (native_fill (List.replicate rx_len 0) data,
        native_fill (List.replicate rx_len 0) pdata) := by
  have hok : wrap_err res = .ok () := by
    unfold wrap_err
    rw [if_neg (by omega)]
  refine ⟨?_, ?_, ?_, ?_, ?_, ?_, ?_, ?_, ?_, ?_, ?_, ?_⟩ <;>
    simp [native_fill_length, initiator_transceive_bytes,
      initiator_transceive_bytes_timed, initiator_transceive_bits,
      initiator_transceive_bits_with_parity, initiator_transceive_bits_timed,
      initiator_transceive_bits_with_parity_timed, target_init,
      target_receive_bytes, target_receive_bits,
      target_receive_bits_with_parity, hok]

/-- Claim C10 witness: with capacity 2 and a successful native return of one
received byte, the returned vector has length exactly 2. -/
theorem receive_buffer_length_witness :
    (native_fill (List.replicate 2 0) [9]).length = 2 ∧
      initiator_transceive_bytes 2 0 [9] =
        .ok (native_fill (List.replicate 2 0) [9]) :=
  ⟨(receive_buffer_length 2 0 [9] [] 4 (by decide)).1,
    (receive_buffer_length 2 0 [9] [] 4 (by decide)).2.2.1⟩

end RsNfc1
